import Mathlib

/-
  Verification of src/diet_problem.py (the Chvátal diet problem driven
  through an LP solver).

  The script builds one linear program over six variables named
  "x_1" .. "x_6" and three ≥-constraints named "c_1" .. "c_3", solves it,
  and then performs a scripted sequence of right-hand-side and
  objective-coefficient edits, re-solving after each edit.  We embed the
  model data literally: the row/name strings become enumeration types, the
  mutable cplex problem object becomes an explicit `ModelState` carrying
  the two kinds of data the script mutates (constraint right-hand sides
  and objective coefficients), and a solver call is specified through
  `IsOptimalValue`, the mathematical contract of the external solving
  capability (spec §4.2): it returns the optimal objective value of the
  model in effect at the call.
-/

namespace DietProblem

/-- The constraint names c_names = ["c_1", "c_2", "c_3"] (line 69). -/
inductive ConName where
  | c_1
  | c_2
  | c_3
deriving DecidableEq

/-- The variable names v_names = ["x_1", ..., "x_6"] (line 49). -/
inductive VarName where
  | x_1
  | x_2
  | x_3
  | x_4
  | x_5
  | x_6
deriving DecidableEq

/-- An assignment of a rational quantity to each decision variable. -/
structure Assign where
  x_1 : ℚ
  x_2 : ℚ
  x_3 : ℚ
  x_4 : ℚ
  x_5 : ℚ
  x_6 : ℚ

/-- The mutable part of the cplex problem object: the three constraint
right-hand sides (c_rhs, line 75) and the six objective coefficients
(v_objective_coefficients, line 59).  Variable bounds, constraint rows and
senses are never mutated by the script, so they stay fixed below. -/
structure ModelState where
  rhs_c_1 : ℚ
  rhs_c_2 : ℚ
  rhs_c_3 : ℚ
  obj_x_1 : ℚ
  obj_x_2 : ℚ
  obj_x_3 : ℚ
  obj_x_4 : ℚ
  obj_x_5 : ℚ
  obj_x_6 : ℚ
deriving DecidableEq

/-- problem.linear_constraints.set_rhs(name, v) (lines 144, 156-157, 169-171). -/
def set_rhs (m : ModelState) (n : ConName) (v : ℚ) : ModelState :=
  match n with
  | .c_1 => { m with rhs_c_1 := v }
  | .c_2 => { m with rhs_c_2 := v }
  | .c_3 => { m with rhs_c_3 := v }

/-- problem.objective.set_linear(name, v) (line 200). -/
def set_linear (m : ModelState) (n : VarName) (v : ℚ) : ModelState :=
  match n with
  | .x_1 => { m with obj_x_1 := v }
  | .x_2 => { m with obj_x_2 := v }
  | .x_3 => { m with obj_x_3 := v }
  | .x_4 => { m with obj_x_4 := v }
  | .x_5 => { m with obj_x_5 := v }
  | .x_6 => { m with obj_x_6 := v }

/-- The right-hand side currently stored for a constraint. -/
def get_rhs (m : ModelState) (n : ConName) : ℚ :=
  match n with
  | .c_1 => m.rhs_c_1
  | .c_2 => m.rhs_c_2
  | .c_3 => m.rhs_c_3

/-- The objective coefficient currently stored for a variable. -/
def get_obj (m : ModelState) (n : VarName) : ℚ :=
  match n with
  | .x_1 => m.obj_x_1
  | .x_2 => m.obj_x_2
  | .x_3 => m.obj_x_3
  | .x_4 => m.obj_x_4
  | .x_5 => m.obj_x_5
  | .x_6 => m.obj_x_6

/-- The model as built by lines 42-83: rhs = [2000, 55, 800] and objective
coefficients [3, 24, 13, 9, 20, 19].  In effect at the first solve (line 92). -/
def problem_build : ModelState :=
  { rhs_c_1 := 2000, rhs_c_2 := 55, rhs_c_3 := 800,
    obj_x_1 := 3, obj_x_2 := 24, obj_x_3 := 13,
    obj_x_4 := 9, obj_x_5 := 20, obj_x_6 := 19 }

/-- After set_rhs("c_1", 1999.0) (line 144); in effect at the second solve
(line 145). -/
def problem_relax_c1 : ModelState :=
  set_rhs problem_build .c_1 1999

/-- After set_rhs("c_2", 54.0) and set_rhs("c_3", 799.0) (lines 156-157);
in effect at the third solve (line 158). -/
def problem_relax_c23 : ModelState :=
  set_rhs (set_rhs problem_relax_c1 .c_2 54) .c_3 799

/-- After the three restoring set_rhs calls (lines 169-171); in effect at
the fourth solve (line 172). -/
def problem_restore : ModelState :=
  set_rhs (set_rhs (set_rhs problem_relax_c23 .c_1 2000) .c_2 55) .c_3 800

/-- After set_linear("x_3", 8.0) (line 200); in effect at the fifth and
final solve (line 201).  The script ends at line 205 in this state. -/
def problem_set_x3 : ModelState :=
  set_linear problem_restore .x_3 8

/-- Row c1_lhs_coefficients = [110, 205, 160, 160, 420, 260] (line 71). -/
def c1_lhs (a : Assign) : ℚ :=
  110 * a.x_1 + 205 * a.x_2 + 160 * a.x_3 + 160 * a.x_4 + 420 * a.x_5 + 260 * a.x_6

/-- Row c2_lhs_coefficients = [4, 32, 13, 8, 4, 14] (line 72). -/
def c2_lhs (a : Assign) : ℚ :=
  4 * a.x_1 + 32 * a.x_2 + 13 * a.x_3 + 8 * a.x_4 + 4 * a.x_5 + 14 * a.x_6

/-- Row c3_lhs_coefficients = [2, 12, 54, 285, 22, 80] (line 73). -/
def c3_lhs (a : Assign) : ℚ :=
  2 * a.x_1 + 12 * a.x_2 + 54 * a.x_3 + 285 * a.x_4 + 22 * a.x_5 + 80 * a.x_6

/-- Feasibility: lower bounds v_lower_bounds = [0,0,0,0,0,0] (line 52),
upper bounds v_upper_bounds = [4,3,2,8,2,2] (line 55), and the three "G"
(≥) constraints with the right-hand sides currently stored in the model. -/
def Feasible (m : ModelState) (a : Assign) : Prop :=
  (0 ≤ a.x_1 ∧ 0 ≤ a.x_2 ∧ 0 ≤ a.x_3 ∧ 0 ≤ a.x_4 ∧ 0 ≤ a.x_5 ∧ 0 ≤ a.x_6) ∧
  (a.x_1 ≤ 4 ∧ a.x_2 ≤ 3 ∧ a.x_3 ≤ 2 ∧ a.x_4 ≤ 8 ∧ a.x_5 ≤ 2 ∧ a.x_6 ≤ 2) ∧
  (m.rhs_c_1 ≤ c1_lhs a ∧ m.rhs_c_2 ≤ c2_lhs a ∧ m.rhs_c_3 ≤ c3_lhs a)

instance instDecidableFeasible (m : ModelState) (a : Assign) :
    Decidable (Feasible m a) :=
  decidable_of_iff
    ((0 ≤ a.x_1 ∧ 0 ≤ a.x_2 ∧ 0 ≤ a.x_3 ∧ 0 ≤ a.x_4 ∧ 0 ≤ a.x_5 ∧ 0 ≤ a.x_6) ∧
     (a.x_1 ≤ 4 ∧ a.x_2 ≤ 3 ∧ a.x_3 ≤ 2 ∧ a.x_4 ≤ 8 ∧ a.x_5 ≤ 2 ∧ a.x_6 ≤ 2) ∧
     (m.rhs_c_1 ≤ c1_lhs a ∧ m.rhs_c_2 ≤ c2_lhs a ∧ m.rhs_c_3 ≤ c3_lhs a))
    Iff.rfl

/-- The minimization objective (line 46): the stored objective coefficient
of each variable times its value. -/
def objValue (m : ModelState) (a : Assign) : ℚ :=
  m.obj_x_1 * a.x_1 + m.obj_x_2 * a.x_2 + m.obj_x_3 * a.x_3 +
    m.obj_x_4 * a.x_4 + m.obj_x_5 * a.x_5 + m.obj_x_6 * a.x_6

/-- Modelled from the spec: problem.solve followed by
problem.solution.get_objective_value returns the optimal objective value
of the model in effect at the solve (§4.2: the external solving capability
is a black box returning the solution of the submitted model; it is not
part of this repository).  v is that value iff some feasible assignment
attains it and no feasible assignment does better (minimization). -/
def IsOptimalValue (m : ModelState) (v : ℚ) : Prop :=
  (∃ a, Feasible m a ∧ objValue m a = v) ∧ ∀ a, Feasible m a → v ≤ objValue m a

theorem optimalValue_unique {m : ModelState} {v w : ℚ}
    (hv : IsOptimalValue m v) (hw : IsOptimalValue m w) : v = w := by
  obtain ⟨⟨a, ha, hav⟩, hvlow⟩ := hv
  obtain ⟨⟨b, hb, hbw⟩, hwlow⟩ := hw
  exact le_antisymm (hbw ▸ hvlow b hb) (hav ▸ hwlow a ha)

/-- Master dual bound.  For any model whose objective row is
[3, 24, t, 9, 20, 19] and whose c_1 right-hand side is b1, the multiplier
9/160 on c_1 together with the bound multipliers on x_1 (at its upper
bound 4) and x_5 (at its upper bound 2) certifies
objValue ≥ 9/160·b1 − 20 + (t − 9)·x_3 for every feasible assignment. -/
theorem objValue_lower_bound (b1 t : ℚ) (m : ModelState)
    (hb : m.rhs_c_1 = b1)
    (h1 : m.obj_x_1 = 3) (h2 : m.obj_x_2 = 24) (h3 : m.obj_x_3 = t)
    (h4 : m.obj_x_4 = 9) (h5 : m.obj_x_5 = 20) (h6 : m.obj_x_6 = 19)
    (a : Assign) (ha : Feasible m a) :
    9/160 * b1 - 20 + (t - 9) * a.x_3 ≤ objValue m a := by
  obtain ⟨⟨l1, l2, l3, l4, l5, l6⟩, ⟨u1, u2, u3, u4, u5, u6⟩, hc1, hc2, hc3⟩ := ha
  rw [hb] at hc1
  simp only [c1_lhs] at hc1
  simp only [objValue, h1, h2, h3, h4, h5, h6]
  nlinarith [hc1, l2, l3, l6, u1, u5]

/-- Packaging of optimality from the two certificates, for any model with
the base objective row except possibly x_3's coefficient t ≥ 9. -/
theorem isOptimalValue_of_certificates (m : ModelState) (b1 t v : ℚ)
    (hb : m.rhs_c_1 = b1)
    (h1 : m.obj_x_1 = 3) (h2 : m.obj_x_2 = 24) (h3 : m.obj_x_3 = t)
    (h4 : m.obj_x_4 = 9) (h5 : m.obj_x_5 = 20) (h6 : m.obj_x_6 = 19)
    (ht : 9 ≤ t) (hv : v = 9/160 * b1 - 20)
    (a0 : Assign) (hfeas : Feasible m a0) (hval : objValue m a0 = v) :
    IsOptimalValue m v := by
  refine ⟨⟨a0, hfeas, hval⟩, fun a ha => ?_⟩
  have hbound := objValue_lower_bound b1 t m hb h1 h2 h3 h4 h5 h6 a ha
  have hx3 : 0 ≤ a.x_3 := ha.1.2.2.1
  have hprod : 0 ≤ (t - 9) * a.x_3 := mul_nonneg (by linarith) hx3
  linarith

/-- The first solve (line 92): the base model has optimal value 92.5,
attained at x = (4, 0, 0, 9/2, 2, 0). -/
theorem opt_build : IsOptimalValue problem_build (185/2) :=
  isOptimalValue_of_certificates problem_build 2000 13 (185/2)
    rfl rfl rfl rfl rfl rfl rfl (by norm_num) (by norm_num)
    ⟨4, 0, 0, 9/2, 2, 0⟩
    (by norm_num [Feasible, c1_lhs, c2_lhs, c3_lhs, problem_build])
    (by norm_num [objValue, problem_build])

/-- The second solve (line 145): with c_1's right-hand side at 1999 the
optimal value is 14791/160 = 92.44375, attained at x_4 = 719/160. -/
theorem opt_relax_c1 : IsOptimalValue problem_relax_c1 (14791/160) :=
  isOptimalValue_of_certificates problem_relax_c1 1999 13 (14791/160)
    rfl rfl rfl rfl rfl rfl rfl (by norm_num) (by norm_num)
    ⟨4, 0, 0, 719/160, 2, 0⟩
    (by norm_num [Feasible, c1_lhs, c2_lhs, c3_lhs, problem_relax_c1,
      problem_build, set_rhs])
    (by norm_num [objValue, problem_relax_c1, problem_build, set_rhs])

/-- The third solve (line 158): additionally lowering c_2 to 54 and c_3
to 799 leaves the optimal value at 14791/160. -/
theorem opt_relax_c23 : IsOptimalValue problem_relax_c23 (14791/160) :=
  isOptimalValue_of_certificates problem_relax_c23 1999 13 (14791/160)
    rfl rfl rfl rfl rfl rfl rfl (by norm_num) (by norm_num)
    ⟨4, 0, 0, 719/160, 2, 0⟩
    (by norm_num [Feasible, c1_lhs, c2_lhs, c3_lhs, problem_relax_c23,
      problem_relax_c1, problem_build, set_rhs])
    (by norm_num [objValue, problem_relax_c23, problem_relax_c1,
      problem_build, set_rhs])

/-- The fourth solve (line 172): the restored model is the base model. -/
theorem opt_restore : IsOptimalValue problem_restore (185/2) :=
  opt_build

/-- For any coefficient t ≥ 9 on x_3 (the base model has t = 13), the
optimal value stays 92.5: lowering x_3's cost by no more than its reduced
cost does not improve the optimum. -/
theorem opt_set_x3_ge (t : ℚ) (ht : 9 ≤ t) :
    IsOptimalValue (set_linear problem_restore .x_3 t) (185/2) :=
  isOptimalValue_of_certificates (set_linear problem_restore .x_3 t)
    2000 t (185/2) rfl rfl rfl rfl rfl rfl rfl ht (by norm_num)
    ⟨4, 0, 0, 9/2, 2, 0⟩
    (by norm_num [Feasible, c1_lhs, c2_lhs, c3_lhs, set_linear,
      problem_restore, problem_relax_c23, problem_relax_c1, problem_build,
      set_rhs])
    (by norm_num [objValue, set_linear, problem_restore, problem_relax_c23,
      problem_relax_c1, problem_build, set_rhs])

/-- For any coefficient t ≤ 9 on x_3, the optimal value is 149/2 + 2t,
attained with x_3 at its upper bound 2 (and x_4 lowered to 5/2). -/
theorem opt_set_x3_le (t : ℚ) (ht : t ≤ 9) :
    IsOptimalValue (set_linear problem_restore .x_3 t) (149/2 + 2 * t) := by
  constructor
  · refine ⟨⟨4, 0, 2, 5/2, 2, 0⟩, ?_, ?_⟩
    · norm_num [Feasible, c1_lhs, c2_lhs, c3_lhs, set_linear,
        problem_restore, problem_relax_c23, problem_relax_c1, problem_build,
        set_rhs]
    · simp only [objValue, set_linear, problem_restore, problem_relax_c23,
        problem_relax_c1, problem_build, set_rhs]
      ring
  · intro a ha
    have hbound := objValue_lower_bound 2000 t
      (set_linear problem_restore .x_3 t) rfl rfl rfl rfl rfl rfl rfl a ha
    have hu3 : a.x_3 ≤ 2 := ha.2.1.2.2.1
    have hprod : (t - 9) * 2 ≤ (t - 9) * a.x_3 :=
      mul_le_mul_of_nonpos_left hu3 (by linarith)
    nlinarith [hbound, hprod]

/-- The fifth solve (line 201): with x_3's coefficient set to 8 the
optimal value is 181/2 = 90.5. -/
theorem opt_set_x3 : IsOptimalValue problem_set_x3 (181/2) := by
  have h := opt_set_x3_le 8 (by norm_num)
  norm_num at h
  exact h

/-- Relaxing a ≥-constraint by one unit means lowering its right-hand side
by one (source comment, lines 136-139). -/
def relax_rhs (m : ModelState) (n : ConName) : ModelState :=
  set_rhs m n (get_rhs m n - 1)

/-- Modelled from the spec: problem.solution.get_dual_values is produced by
the external solving capability (not part of this repository); the spec
glossary defines the dual value of a constraint as the marginal change in
the optimal objective value per unit relaxation of its right-hand side.
d is the dual value of constraint n iff the optimum drops by exactly d
when n is relaxed by one unit. -/
def IsDualValue (m : ModelState) (n : ConName) (d : ℚ) : Prop :=
  ∃ v w, IsOptimalValue m v ∧ IsOptimalValue (relax_rhs m n) w ∧ d = v - w

/-- Modelled from the spec: problem.solution.get_reduced_costs is produced
by the external solving capability (not part of this repository); the spec
glossary defines the reduced cost of a variable as the marginal improvement
needed in its objective coefficient before it becomes profitable for the
variable to take a nonzero value.  r is the reduced cost of variable n iff,
for every improvement t > 0 of n's coefficient (a decrease, since the
problem minimizes), the optimum strictly improves exactly when t > r. -/
def IsReducedCost (m : ModelState) (n : VarName) (r : ℚ) : Prop :=
  ∀ t : ℚ, 0 < t →
    ((∃ v w, IsOptimalValue m v ∧
        IsOptimalValue (set_linear m n (get_obj m n - t)) w ∧ w < v) ↔ r < t)

theorem relax_rhs_c1_eq : relax_rhs problem_build .c_1 = problem_relax_c1 := by
  simp only [relax_rhs, get_rhs, set_rhs, problem_relax_c1, problem_build]
  norm_num

/-- Relaxing c_2 alone (rhs 55 → 54) leaves the base optimum at 92.5. -/
theorem opt_relax_only_c2 :
    IsOptimalValue (relax_rhs problem_build .c_2) (185/2) :=
  isOptimalValue_of_certificates (relax_rhs problem_build .c_2)
    2000 13 (185/2) rfl rfl rfl rfl rfl rfl rfl (by norm_num) (by norm_num)
    ⟨4, 0, 0, 9/2, 2, 0⟩
    (by norm_num [Feasible, c1_lhs, c2_lhs, c3_lhs, relax_rhs, get_rhs,
      set_rhs, problem_build])
    (by norm_num [objValue, relax_rhs, get_rhs, set_rhs, problem_build])

/-- Relaxing c_3 alone (rhs 800 → 799) leaves the base optimum at 92.5. -/
theorem opt_relax_only_c3 :
    IsOptimalValue (relax_rhs problem_build .c_3) (185/2) :=
  isOptimalValue_of_certificates (relax_rhs problem_build .c_3)
    2000 13 (185/2) rfl rfl rfl rfl rfl rfl rfl (by norm_num) (by norm_num)
    ⟨4, 0, 0, 9/2, 2, 0⟩
    (by norm_num [Feasible, c1_lhs, c2_lhs, c3_lhs, relax_rhs, get_rhs,
      set_rhs, problem_build])
    (by norm_num [objValue, relax_rhs, get_rhs, set_rhs, problem_build])

/-- Modelled from the spec: the record returned by a successful call of the
external solving capability (§4.2: status, objective value, primal values,
dual values, reduced costs). -/
structure SolveOutcome where
  objective_value : ℚ
  values : VarName → ℚ
  dual_values : ConName → ℚ
  reduced_costs : VarName → ℚ

/-- One printed line of the script's output, classified by which solution
datum it reports.  Static banners and explanatory prose are proseText. -/
inductive ReportItem where
  | proseText : ReportItem
  | objectiveValue : ℚ → ReportItem
  | variableValue : VarName → ℚ → ReportItem
  | dualValue : ConName → ℚ → ReportItem
  | reducedCost : VarName → ℚ → ReportItem

/-- Output between the first solve (line 92) and the second (line 145):
the model banner, the objective value and the six primal values
(lines 94-126), the three dual values (lines 128-130), the dual-value
prose, and the before-objective and c_1-relaxation lines (lines 132-143). -/
def reports_after_solve1 (s : SolveOutcome) : List ReportItem :=
  [.proseText, .proseText, .objectiveValue s.objective_value,
   .variableValue .x_1 (s.values .x_1), .variableValue .x_2 (s.values .x_2),
   .variableValue .x_3 (s.values .x_3), .variableValue .x_4 (s.values .x_4),
   .variableValue .x_5 (s.values .x_5), .variableValue .x_6 (s.values .x_6),
   .proseText,
   .dualValue .c_1 (s.dual_values .c_1), .dualValue .c_2 (s.dual_values .c_2),
   .dualValue .c_3 (s.dual_values .c_3),
   .proseText, .objectiveValue s.objective_value, .proseText]

/-- Output between the second solve (line 145) and the third (line 158):
the after-objective (line 146), the zero-dual prose, the before-objective
(line 153) and the two relaxation lines (lines 148-155). -/
def reports_after_solve2 (s : SolveOutcome) : List ReportItem :=
  [.objectiveValue s.objective_value, .proseText,
   .objectiveValue s.objective_value, .proseText]

/-- Output between the third solve (line 158) and the fourth (line 172):
the after-objective (line 159) and the restoration prose (lines 161-168). -/
def reports_after_solve3 (s : SolveOutcome) : List ReportItem :=
  [.objectiveValue s.objective_value, .proseText]

/-- Output between the fourth solve (line 172) and the fifth (line 201):
the six reduced costs (lines 174-176), the reduced-cost prose, and the
before lines for the objective, x_3's value and x_3's reduced cost
(lines 178-199). -/
def reports_after_solve4 (s : SolveOutcome) : List ReportItem :=
  [.proseText,
   .reducedCost .x_1 (s.reduced_costs .x_1), .reducedCost .x_2 (s.reduced_costs .x_2),
   .reducedCost .x_3 (s.reduced_costs .x_3), .reducedCost .x_4 (s.reduced_costs .x_4),
   .reducedCost .x_5 (s.reduced_costs .x_5), .reducedCost .x_6 (s.reduced_costs .x_6),
   .proseText, .objectiveValue s.objective_value,
   .variableValue .x_3 (s.values .x_3), .proseText,
   .reducedCost .x_3 (s.reduced_costs .x_3)]

/-- Output after the fifth solve (lines 202-205): the after lines for the
objective, x_3's value and x_3's reduced cost. -/
def reports_after_solve5 (s : SolveOutcome) : List ReportItem :=
  [.objectiveValue s.objective_value, .variableValue .x_3 (s.values .x_3),
   .proseText, .reducedCost .x_3 (s.reduced_costs .x_3)]

/-- The whole script as a run against an abstract solving capability.
solver k m is the outcome of the (k+1)-th problem.solve() invocation, made
with model state m; an error value stands for any failure the capability
signals (infeasible, unbounded, numerical failure).  The script installs
no handler, so a failure ends the run at once: the result is the output
printed so far paired with the propagated error.  The model states passed
to the five solves are exactly those of lines 92, 145, 158, 172 and 201. -/
def runScript (E : Type) (solver : ℕ → ModelState → Except E SolveOutcome) :
    List ReportItem × Option E :=
  match solver 0 problem_build with
  | .error e => ([], some e)
  | .ok s1 =>
    match solver 1 problem_relax_c1 with
    | .error e => (reports_after_solve1 s1, some e)
    | .ok s2 =>
      match solver 2 problem_relax_c23 with
      | .error e => (reports_after_solve1 s1 ++ reports_after_solve2 s2, some e)
      | .ok s3 =>
        match solver 3 problem_restore with
        | .error e =>
          (reports_after_solve1 s1 ++ reports_after_solve2 s2 ++
            reports_after_solve3 s3, some e)
        | .ok s4 =>
          match solver 4 problem_set_x3 with
          | .error e =>
            (reports_after_solve1 s1 ++ reports_after_solve2 s2 ++
              reports_after_solve3 s3 ++ reports_after_solve4 s4, some e)
          | .ok s5 =>
            (reports_after_solve1 s1 ++ reports_after_solve2 s2 ++
              reports_after_solve3 s3 ++ reports_after_solve4 s4 ++
              reports_after_solve5 s5, none)

/-- C1 (counterexample): the optimal objective value of the base model is
not 91.0, not even within the claimed floating tolerance of 1e-6.  The
model built on lines 42-83 has optimum 92.5 (Chvátal's published answer),
so no value the first solve can correctly return is within 1e-6 of 91. -/
theorem base_objective_not_91 :
    ¬ ∃ v, IsOptimalValue problem_build v ∧ |v - 91| ≤ 1/1000000 := by
  rintro ⟨v, hv, htol⟩
  have hval : v = 185/2 := optimalValue_unique hv opt_build
  rw [hval, abs_le] at htol
  obtain ⟨-, h⟩ := htol
  norm_num at h

/-- C1 (amended): the optimal objective value returned by the first solve
equals 92.5 for the base model (six variables with bounds [0,·] and
[4,3,2,8,2,2], objective [3,24,13,9,20,19], three ≥-constraints with rhs
[2000,55,800], minimization). -/
theorem base_objective_value : IsOptimalValue problem_build (185/2) :=
  opt_build

/-- C2 (counterexample): the objective value of the third solve (after
lowering c_2's rhs to 54 and c_3's rhs to 799) is not 91.0. -/
theorem relax_c23_objective_not_91 :
    ¬ IsOptimalValue problem_relax_c23 91 := by
  intro h
  have hval := optimalValue_unique h opt_relax_c23
  norm_num at hval

/-- C2 (amended): after the program lowers c_2's rhs to 54 and c_3's rhs
to 799 simultaneously and re-solves, the objective value is unchanged from
the previous solve, consistent with the zero dual values of c_2 and c_3 —
but both solves return 14791/160 = 92.44375, not 91.0 (c_1's rhs is still
1999 at that point). -/
theorem relax_c23_objective_unchanged :
    IsOptimalValue problem_relax_c23 (14791/160) ∧
      IsOptimalValue problem_relax_c1 (14791/160) :=
  ⟨opt_relax_c23, opt_relax_c1⟩

/-- C3 (counterexample): the script does not restore every mutated value.
At the end of the run (line 205) x_3's objective coefficient is still 8,
not its original literal value 13: the set_linear("x_3", 8.0) of line 200
is never undone. -/
theorem final_obj_x3_not_restored :
    problem_set_x3.obj_x_3 = 8 ∧ (8 : ℚ) ≠ 13 :=
  ⟨rfl, by norm_num⟩

/-- C3 (amended): the demonstration performs exactly the hard-coded edits
(c_1 rhs 2000→1999, then c_2 rhs→54 and c_3 rhs→799, then the rhs restore,
then x_3's objective coefficient 13→8).  The constraint right-hand sides
are restored to their original literal values (the restored state is the
built state), but x_3's objective coefficient is not restored: at the end
of the run the model differs from the original exactly in that coefficient,
which is 8. -/
theorem sensitivity_edits_trace :
    problem_relax_c1 = { problem_build with rhs_c_1 := 1999 } ∧
    problem_relax_c23 =
      { problem_build with rhs_c_1 := 1999, rhs_c_2 := 54, rhs_c_3 := 799 } ∧
    problem_restore = problem_build ∧
    problem_set_x3 = { problem_build with obj_x_3 := 8 } :=
  ⟨rfl, rfl, rfl, rfl⟩

/-- C4: at the base optimum (rhs [2000,55,800]) the dual value of c_1
equals 9/160 = 0.05625 and the dual values of c_2 and c_3 both equal 0:
relaxing c_1's rhs by one unit improves the optimum by exactly 9/160,
while relaxing c_2 or c_3 by one unit leaves it unchanged. -/
theorem dual_values_at_base :
    IsDualValue problem_build .c_1 (9/160) ∧
      IsDualValue problem_build .c_2 0 ∧ IsDualValue problem_build .c_3 0 := by
  refine ⟨⟨185/2, 14791/160, opt_build, ?_, by norm_num⟩,
    ⟨185/2, 185/2, opt_build, opt_relax_only_c2, by norm_num⟩,
    ⟨185/2, 185/2, opt_build, opt_relax_only_c3, by norm_num⟩⟩
  rw [relax_rhs_c1_eq]
  exact opt_relax_c1

/-- C5 (counterexample): after lowering c_1's rhs to 1999 the new optimal
objective value is not 90.94375 (= 14551/160), not even within 1e-6: the
second solve's optimum is 14791/160 = 92.44375. -/
theorem relax_c1_objective_not_90_94375 :
    ¬ ∃ v, IsOptimalValue problem_relax_c1 v ∧ |v - 14551/160| ≤ 1/1000000 := by
  rintro ⟨v, hv, htol⟩
  have hval : v = 14791/160 := optimalValue_unique hv opt_relax_c1
  rw [hval, abs_le] at htol
  obtain ⟨-, h⟩ := htol
  norm_num at h

/-- C5 (amended): after the program lowers c_1's rhs from 2000 to 1999 and
re-solves, the new optimal objective value equals the base optimum 92.5
minus the dual value 0.05625, i.e. 92.44375 — the dual-value relationship
the claim describes holds, but around 92.5 rather than 91.0. -/
theorem relax_c1_objective_drop :
    IsOptimalValue problem_relax_c1 (185/2 - 9/160) := by
  have h := opt_relax_c1
  norm_num at h ⊢
  exact h

/-- C6: at the base optimum (restored rhs [2000,55,800], coefficient of
x_3 still 13) every optimal assignment gives x_3 the value 0, and the
reduced cost of x_3 equals 4: decreasing x_3's objective coefficient by t
strictly improves the optimum exactly when t > 4. -/
theorem x3_zero_and_reduced_cost_four :
    (∀ a, Feasible problem_restore a →
      objValue problem_restore a ≤ 185/2 → a.x_3 = 0) ∧
    IsReducedCost problem_restore .x_3 4 := by
  constructor
  · intro a ha hobj
    have hbound := objValue_lower_bound 2000 13 problem_restore
      rfl rfl rfl rfl rfl rfl rfl a ha
    have hx3 : 0 ≤ a.x_3 := ha.1.2.2.1
    linarith
  · intro t ht
    have hg : get_obj problem_restore .x_3 = (13 : ℚ) := rfl
    constructor
    · rintro ⟨v, w, hv, hw, hlt⟩
      by_contra hnot
      push_neg at hnot
      rw [hg] at hw
      have hv' : v = 185/2 := optimalValue_unique hv opt_restore
      have hw' : w = 185/2 :=
        optimalValue_unique hw (opt_set_x3_ge (13 - t) (by linarith))
      rw [hv', hw'] at hlt
      exact absurd hlt (lt_irrefl _)
    · intro h4t
      refine ⟨185/2, 149/2 + 2 * (13 - t), opt_restore, ?_, by linarith⟩
      rw [hg]
      exact opt_set_x3_le (13 - t) (by linarith)

/-- C6 (witness): the optimal assignment (4, 0, 0, 9/2, 2, 0) of the
restored model indeed has x_3 = 0. -/
theorem x3_zero_witness : (⟨4, 0, 0, 9/2, 2, 0⟩ : Assign).x_3 = 0 :=
  x3_zero_and_reduced_cost_four.1 ⟨4, 0, 0, 9/2, 2, 0⟩
    (by norm_num [Feasible, c1_lhs, c2_lhs, c3_lhs, problem_restore,
      problem_relax_c23, problem_relax_c1, problem_build, set_rhs])
    (by norm_num [objValue, problem_restore, problem_relax_c23,
      problem_relax_c1, problem_build, set_rhs])

/-- C7: after x_3's objective coefficient is decreased from 13 to 8, the
fifth solve's optimal value is 181/2 = 90.5, which is strictly less than
91.0, and every optimal assignment gives x_3 a strictly positive value. -/
theorem x3_positive_after_coefficient_8 :
    IsOptimalValue problem_set_x3 (181/2) ∧ (181/2 : ℚ) < 91 ∧
    ∀ a, Feasible problem_set_x3 a →
      objValue problem_set_x3 a ≤ 181/2 → 0 < a.x_3 := by
  refine ⟨opt_set_x3, by norm_num, fun a ha hobj => ?_⟩
  have hbound := objValue_lower_bound 2000 8 problem_set_x3
    rfl rfl rfl rfl rfl rfl rfl a ha
  linarith

/-- C7 (witness): the optimal assignment (4, 0, 2, 5/2, 2, 0) of the
edited model indeed has x_3 > 0. -/
theorem x3_positive_witness : (0 : ℚ) < (⟨4, 0, 2, 5/2, 2, 0⟩ : Assign).x_3 :=
  x3_positive_after_coefficient_8.2.2 ⟨4, 0, 2, 5/2, 2, 0⟩
    (by norm_num [Feasible, c1_lhs, c2_lhs, c3_lhs, problem_set_x3,
      set_linear, problem_restore, problem_relax_c23, problem_relax_c1,
      problem_build, set_rhs])
    (by norm_num [objValue, problem_set_x3, set_linear, problem_restore,
      problem_relax_c23, problem_relax_c1, problem_build, set_rhs])

/-- C8 (counterexample): the solve performed immediately after the rhs
restore does not return objective value 91.0: the restored model's optimum
is 92.5. -/
theorem restore_objective_not_91 : ¬ IsOptimalValue problem_restore 91 := by
  intro h
  have hval := optimalValue_unique h opt_restore
  norm_num at hval

/-- C8 (amended): restoring the mutated right-hand sides to their original
literal values yields exactly the originally built model, so the solve
after the restore reproduces the original optimal objective value — which
is 92.5, not 91.0. -/
theorem restore_reproduces_base_optimum :
    problem_restore = problem_build ∧ IsOptimalValue problem_restore (185/2) :=
  ⟨rfl, opt_restore⟩

/-- C9: if any solve invocation signals a failure e, the error propagates
uncaught: the run ends with error e, its output is exactly what was
printed before that solve, and none of the reporting steps that follow the
failed solve (objective value, primal values, dual values, reduced costs)
is reached. -/
theorem solver_failure_propagates (E : Type)
    (solver : ℕ → ModelState → Except E SolveOutcome) (e : E) :
    (solver 0 problem_build = .error e → runScript E solver = ([], some e)) ∧
    (∀ s1, solver 0 problem_build = .ok s1 →
      solver 1 problem_relax_c1 = .error e →
      runScript E solver = (reports_after_solve1 s1, some e)) ∧
    (∀ s1 s2, solver 0 problem_build = .ok s1 →
      solver 1 problem_relax_c1 = .ok s2 →
      solver 2 problem_relax_c23 = .error e →
      runScript E solver =
        (reports_after_solve1 s1 ++ reports_after_solve2 s2, some e)) ∧
    (∀ s1 s2 s3, solver 0 problem_build = .ok s1 →
      solver 1 problem_relax_c1 = .ok s2 →
      solver 2 problem_relax_c23 = .ok s3 →
      solver 3 problem_restore = .error e →
      runScript E solver =
        (reports_after_solve1 s1 ++ reports_after_solve2 s2 ++
          reports_after_solve3 s3, some e)) ∧
    (∀ s1 s2 s3 s4, solver 0 problem_build = .ok s1 →
      solver 1 problem_relax_c1 = .ok s2 →
      solver 2 problem_relax_c23 = .ok s3 →
      solver 3 problem_restore = .ok s4 →
      solver 4 problem_set_x3 = .error e →
      runScript E solver =
        (reports_after_solve1 s1 ++ reports_after_solve2 s2 ++
          reports_after_solve3 s3 ++ reports_after_solve4 s4, some e)) := by
  refine ⟨fun h0 => ?_, fun s1 h0 h1 => ?_, fun s1 s2 h0 h1 h2 => ?_,
    fun s1 s2 s3 h0 h1 h2 h3 => ?_, fun s1 s2 s3 s4 h0 h1 h2 h3 h4 => ?_⟩
  · simp only [runScript, h0]
  · simp only [runScript, h0, h1]
  · simp only [runScript, h0, h1, h2]
  · simp only [runScript, h0, h1, h2, h3]
  · simp only [runScript, h0, h1, h2, h3, h4]

/-- C9 (witness): a capability that fails at the very first solve ends the
run immediately with no report printed. -/
theorem solver_failure_witness :
    runScript Unit (fun _ _ => Except.error ()) = ([], some ()) :=
  (solver_failure_propagates Unit (fun _ _ => Except.error ()) ()).1 rfl

/-- C10: the mutations of c_2's and c_3's right-hand sides (lines 156-157)
leave c_1's right-hand side unchanged: at the third solve it still holds
the value 1999 set on line 144, not 2000; it returns to 2000 only at the
explicit restore of line 169. -/
theorem c1_rhs_frame :
    problem_relax_c23.rhs_c_1 = 1999 ∧ problem_relax_c23.rhs_c_1 ≠ 2000 ∧
      problem_restore.rhs_c_1 = 2000 :=
  ⟨rfl, by norm_num [problem_relax_c23, problem_relax_c1, problem_build,
    set_rhs], rfl⟩

end DietProblem
